import Mathlib

/-!
Verification of the book-metadata resolution pipeline of `app.py`
(`my-book-library`): the genre classifier `_normalize_genre`, the author
normalizer `normalize_author_name`, the Open Library provider adapter
`_fetch_from_openlibrary`, and the orchestrator `fetch_book_info`.

The Python code is shallowly embedded: strings are Lean `String`s (lists of
characters, ASCII case semantics), `None` is `Option.none`, Python truthiness
of strings/options is made explicit, and the database / HTTP collaborators
are abstracted as explicit inputs (the cache-lookup outcome and the two
provider results).  `fetch_book_info` additionally returns the list of
provider calls it performs, so that "no network call on a cache hit" and
"secondary called only when primary is absent" are directly statable.
-/

/-! ### ASCII character case operations (Python `str.lower`/`str.upper`) -/

/-- ASCII lower-casing of one character, as Python `str.lower` does per char. -/
def lowerChar : Char → Char
  | 'A' => 'a' | 'B' => 'b' | 'C' => 'c' | 'D' => 'd' | 'E' => 'e' | 'F' => 'f'
  | 'G' => 'g' | 'H' => 'h' | 'I' => 'i' | 'J' => 'j' | 'K' => 'k' | 'L' => 'l'
  | 'M' => 'm' | 'N' => 'n' | 'O' => 'o' | 'P' => 'p' | 'Q' => 'q' | 'R' => 'r'
  | 'S' => 's' | 'T' => 't' | 'U' => 'u' | 'V' => 'v' | 'W' => 'w' | 'X' => 'x'
  | 'Y' => 'y' | 'Z' => 'z'
  | c => c

/-- ASCII upper-casing of one character, as Python `str.upper` does per char. -/
def upperChar : Char → Char
  | 'a' => 'A' | 'b' => 'B' | 'c' => 'C' | 'd' => 'D' | 'e' => 'E' | 'f' => 'F'
  | 'g' => 'G' | 'h' => 'H' | 'i' => 'I' | 'j' => 'J' | 'k' => 'K' | 'l' => 'L'
  | 'm' => 'M' | 'n' => 'N' | 'o' => 'O' | 'p' => 'P' | 'q' => 'Q' | 'r' => 'R'
  | 's' => 'S' | 't' => 'T' | 'u' => 'U' | 'v' => 'V' | 'w' => 'W' | 'x' => 'X'
  | 'y' => 'Y' | 'z' => 'Z'
  | c => c

/-- Is the character a cased (ASCII) letter?  Python `str.title` uses this to
decide word boundaries. -/
def isCasedChar : Char → Bool
  | 'a' | 'b' | 'c' | 'd' | 'e' | 'f' | 'g' | 'h' | 'i' | 'j' | 'k' | 'l' | 'm'
  | 'n' | 'o' | 'p' | 'q' | 'r' | 's' | 't' | 'u' | 'v' | 'w' | 'x' | 'y' | 'z'
  | 'A' | 'B' | 'C' | 'D' | 'E' | 'F' | 'G' | 'H' | 'I' | 'J' | 'K' | 'L' | 'M'
  | 'N' | 'O' | 'P' | 'Q' | 'R' | 'S' | 'T' | 'U' | 'V' | 'W' | 'X' | 'Y' | 'Z' => true
  | _ => false

/-- Is the character an ASCII lower-case letter? -/
def isLowerLetter : Char → Bool
  | 'a' | 'b' | 'c' | 'd' | 'e' | 'f' | 'g' | 'h' | 'i' | 'j' | 'k' | 'l' | 'm'
  | 'n' | 'o' | 'p' | 'q' | 'r' | 's' | 't' | 'u' | 'v' | 'w' | 'x' | 'y' | 'z' => true
  | _ => false

/-! ### Python string helpers -/

/-- Python `str.lower` (ASCII). -/
def pyLower (s : String) : String := String.mk (s.data.map lowerChar)

/-- One character of Python `str.title`: upper-case after a word boundary,
lower-case inside a word. -/
def titleChar (prevCased : Bool) (c : Char) : Char :=
  if prevCased then lowerChar c else upperChar c

/-- Worker for Python `str.title`: the flag records whether the previous
character was cased. -/
def titleAux : Bool → List Char → List Char
  | _, [] => []
  | prev, c :: cs => titleChar prev c :: titleAux (isCasedChar c) cs

/-- Python `str.title` (ASCII). -/
def pyTitle (s : String) : String := String.mk (titleAux false s.data)

/-- The characters Python `str.strip()` removes by default. -/
def isPySpace (c : Char) : Bool :=
  c = ' ' || c = '\t' || c = '\n' || c = '\r' || c = '\x0b' || c = '\x0c'

/-- Python `str.strip()`: drop leading and trailing whitespace. -/
def pyStrip (s : String) : String :=
  String.mk (((s.data.dropWhile isPySpace).reverse.dropWhile isPySpace).reverse)

/-- Python `sep.join(parts)`. -/
def pyJoin (sep : String) : List String → String
  | [] => ""
  | [a] => a
  | a :: b :: rest => a ++ sep ++ pyJoin sep (b :: rest)

/-- Does `hay` start with `needle`? -/
def leadsWith : List Char → List Char → Bool
  | [], _ => true
  | _ :: _, [] => false
  | n :: ns, h :: hs => (n == h) && leadsWith ns hs

/-- Substring search on character lists. -/
def containsSub (needle : List Char) : List Char → Bool
  | [] => leadsWith needle []
  | c :: t => leadsWith needle (c :: t) || containsSub needle t

/-- Python `needle in text` for strings (substring containment). -/
def pyIn (needle text : String) : Bool := containsSub needle.data text.data

/-- Python `x or default` for an optional string, where `None` and `""` are
falsy (used for `cached["title"] or "Unknown title"` etc.). -/
def pyOrStr (o : Option String) (d : String) : String :=
  match o with
  | none => d
  | some s => if s = "" then d else s

/-- Python `a or b` where both sides are optional strings and `None`/`""` are
falsy (used for the cover-size preference chains). -/
def pyOrOpt (a b : Option String) : Option String :=
  match a with
  | none => b
  | some s => if s = "" then b else some s

/-! ### `normalize_author_name` (app.py lines 386-397) -/

/-- Python `name.split(",", 1)` when a comma is present: `some (before, after)`
for the first comma, `none` when the string has no comma. -/
def splitFirstComma : List Char → Option (List Char × List Char)
  | [] => none
  | c :: cs =>
    if c = ',' then some ([], cs)
    else (splitFirstComma cs).map (fun p => (c :: p.1, p.2))

/-- `normalize_author_name`: trim; if the trimmed name contains a comma, split
on the first comma into (last, first) and, when both parts are non-empty after
trimming, return `"first last"`; otherwise return the trimmed name.  A `none`
input models Python `None` (the code guards with `name or ""`). -/
def normalize_author_name (name : Option String) : String :=
  let n := pyStrip (name.getD "")
  match splitFirstComma n.data with
  | some (l, f) =>
    let last := pyStrip (String.mk l)
    let first := pyStrip (String.mk f)
    if last ≠ "" && first ≠ "" then first ++ " " ++ last else n
  | none => n

/-! ### `_normalize_genre` (app.py lines 171-256) -/

/-- The controlled genre list of `_normalize_genre` (the taxonomy). -/
def GENRES : List String :=
  ["Crime", "Comedy", "Thriller", "Fantasy", "Science Fiction", "Horror",
   "Mystery", "Romance", "Young Adult", "Poetry", "Biography", "History",
   "Philosophy", "Self-Help", "Business", "Literary Fiction", "Non-Fiction",
   "Anthology"]

/-- The generic subjects excluded by the last-resort fallback. -/
def GENERIC : List String :=
  ["fiction", "nonfiction", "literature", "juvenile fiction", "juvenile nonfiction"]

/-- `has(*words)` of `_normalize_genre`: is any of the words a substring of
the search text? -/
def hasAny (text : String) (words : List String) : Bool :=
  words.any (fun w => pyIn w text)

/-- The final fallback loop of `_normalize_genre`: title-case the first
subject not in the generic exclusion set. -/
def firstNonGeneric : List String → Option String
  | [] => none
  | s :: rest => if s ∈ GENERIC then firstNonGeneric rest else some (pyTitle s)

/-- The rule chain of `_normalize_genre` (app.py lines 205-256), applied to
the joined search text and the (lowered) subject list: the prioritised
keyword rules, the fiction and non-fiction catch-alls, then the
non-generic-subject fallback. -/
def genreRules (text : String) (subjects : List String) : Option String :=
  if hasAny text ["crime", "detective", "police", "noir", "murder"] then some "Crime"
  else if hasAny text ["comedy", "humor", "humour", "comedic", "satire", "parody"] then some "Comedy"
  else if hasAny text ["thriller", "suspense", "conspiracy"] then some "Thriller"
  else if hasAny text ["fantasy", "magic", "dragon", "wizard", "mythical"] then some "Fantasy"
  else if hasAny text ["science fiction", "sci-fi", "sci fi", "space", "dystopian", "post-apocalyptic", "cyberpunk"] then some "Science Fiction"
  else if hasAny text ["horror", "ghost", "haunted", "supernatural", "vampire"] then some "Horror"
  else if hasAny text ["mystery", "whodunit", "detective story"] then some "Mystery"
  else if hasAny text ["romance", "love story", "romantic"] then some "Romance"
  else if hasAny text ["young adult", "ya", "teen fiction", "adolescent"] then some "Young Adult"
  else if hasAny text ["poetry", "poem", "verse"] then some "Poetry"
  else if hasAny text ["biography", "memoir", "autobiography"] then some "Biography"
  else if hasAny text ["history", "historical"] then some "History"
  else if hasAny text ["philosophy", "existentialism", "ethics", "metaphysics"] then some "Philosophy"
  else if hasAny text ["self-help", "self help", "personal growth", "motivation"] then some "Self-Help"
  else if hasAny text ["business", "management", "leadership", "entrepreneur", "economics"] then some "Business"
  else if hasAny text ["anthology", "collection", "short stories", "compiled"] then some "Anthology"
  else if hasAny text ["fiction"] then some "Literary Fiction"
  else if hasAny text ["language", "culture", "society", "politics", "essays", "social life", "reportage"] then some "Non-Fiction"
  else firstNonGeneric subjects

/-- Body of `_normalize_genre` after its inputs have been lower-cased:
build the search text `" ".join(subjects + [title, description])`
(app.py line 203) and run the rule chain. -/
def normalizeGenreLowered (subjects : List String) (title description : String) : Option String :=
  genreRules (pyJoin " " (subjects ++ [title, description])) subjects

/-- `_normalize_genre(subjects, title, description)`: lower-case the title,
description (`None` becomes `""`) and every subject (app.py lines 199-201),
then run the rule body. -/
def normalize_genre (subjects : List String) (title description : Option String) : Option String :=
  normalizeGenreLowered (subjects.map pyLower) (pyLower (title.getD "")) (pyLower (description.getD ""))

/-! ### Data model and the Open Library adapter (app.py lines 259-303) -/

/-- The common metadata shape produced by a provider client
(`_fetch_from_openlibrary` / `_fetch_from_googlebooks` return value). -/
structure BookMetadata where
  title : Option String
  authors : List String
  cover_url : Option String
  subjects : List String
  description : Option String
deriving DecidableEq

/-- The `description` field of an Open Library entry: a plain string, an
object with a `value` field, or missing/of another shape. -/
inductive OLDesc where
  | str (s : String)
  | obj (value : Option String)
  | missing
deriving DecidableEq

/-- The `cover` object of an Open Library entry. -/
structure OLCover where
  medium : Option String
  large : Option String
  small : Option String
deriving DecidableEq

/-- An Open Library record for one ISBN key: optional title, author objects
(each an optional `name`), optional cover object, subject objects, and a
description. -/
structure OLEntry where
  title : Option String
  authors : List (Option String)
  cover : Option OLCover
  subjects : List (Option String)
  description : OLDesc
deriving DecidableEq

/-- Python truthiness filter used by the openlibrary comprehensions
(`if a.get("name")`): keep only names that are present and non-empty. -/
def truthyNames (l : List (Option String)) : List String :=
  l.filterMap (fun n =>
    match n with
    | some s => if s = "" then none else some s
    | none => none)

/-- `_fetch_from_openlibrary`, abstracted over the upstream outcome: `none`
models a failed request, unparseable body, or a response without the
`"ISBN:{isbn}"` key; `some entry` models a response holding a record.  The
adapter extracts title, truthy author names, the medium > large > small cover
preference, truthy subject names, and the string form of the description. -/
def fetch_from_openlibrary (resp : Option OLEntry) : Option BookMetadata :=
  match resp with
  | none => none
  | some entry =>
    some
      { title := entry.title
        authors := truthyNames entry.authors
        cover_url :=
          match entry.cover with
          | none => none
          | some c => pyOrOpt c.medium (pyOrOpt c.large c.small)
        subjects := truthyNames entry.subjects
        description :=
          match entry.description with
          | OLDesc.str s => some s
          | OLDesc.obj v => v
          | OLDesc.missing => none }

/-! ### `get_book_from_db_by_isbn` row shape and `fetch_book_info`
(app.py lines 400-459) -/

/-- The cached row returned by `get_book_from_db_by_isbn`: the four columns,
each possibly NULL. -/
structure CacheRecord where
  title : Option String
  author : Option String
  cover_url : Option String
  genre : Option String
deriving DecidableEq

/-- Which provider lookups `fetch_book_info` performs. -/
inductive ProviderCall where
  | primary
  | secondary
deriving DecidableEq

/-- The tuple `fetch_book_info` returns: (title, author, cover_url, genre). -/
abbrev ResolvedTuple := String × String × Option String × Option String

/-- Field composition of `fetch_book_info` for a provider result
(app.py lines 449-459): sentinel fallbacks for title/author, author names
normalized then comma-joined, cover passed through, genre classified from
(subjects, substituted title, description). -/
def composeMeta (m : BookMetadata) : ResolvedTuple :=
  (pyOrStr m.title "Unknown title",
   if (m.authors.map (fun a => normalize_author_name (some a))).isEmpty
   then "Unknown author"
   else pyJoin ", " (m.authors.map (fun a => normalize_author_name (some a))),
   m.cover_url,
   normalize_genre m.subjects (some (pyOrStr m.title "Unknown title")) m.description)

/-- The provider result `fetch_book_info` composes from: the primary result
if present, otherwise the secondary result (`meta = primary; if not meta:
meta = secondary`). -/
def chosenMeta (primary secondary : Option BookMetadata) : Option BookMetadata :=
  match primary with
  | some m => some m
  | none => secondary

/-- `fetch_book_info`, abstracted over its collaborators.  `cacheRes` is the
outcome of `get_book_from_db_by_isbn`: `Except.error e` models the lookup
raising (the store being unavailable; the code logs and falls through),
`Except.ok none` a cache miss, `Except.ok (some rec)` a cache hit.  `primary`
and `secondary` are the two provider results.  Besides the resolved tuple the
embedding returns the list of provider calls performed, in order. -/
def fetch_book_info (cacheRes : Except String (Option CacheRecord))
    (primary secondary : Option BookMetadata) : ResolvedTuple × List ProviderCall :=
  match cacheRes with
  | Except.ok (some cached) =>
    ((pyOrStr cached.title "Unknown title", pyOrStr cached.author "Unknown author",
      cached.cover_url, cached.genre), [])
  | _ =>
    let calls :=
      match primary with
      | some _ => [ProviderCall.primary]
      | none => [ProviderCall.primary, ProviderCall.secondary]
    match chosenMeta primary secondary with
    | some meta => (composeMeta meta, calls)
    | none => (("Unknown title", "Unknown author", none, none), calls)


/-! ### Concrete sample inputs used for witnesses and counterexamples -/

/-- A sample provider result: a book found by a provider. -/
def sampleMeta : BookMetadata :=
  { title := some "The Hobbit"
    authors := ["Tolkien, J. R. R."]
    cover_url := some "http://covers.example/hobbit.jpg"
    subjects := ["fantasy"]
    description := none }

/-- A well-behaved provider result with no blank author and no sentinel-shaped
cover URL. -/
def niceMeta : BookMetadata :=
  { title := some "Dune"
    authors := ["Herbert, Frank"]
    cover_url := some "http://covers.example/dune.jpg"
    subjects := ["science fiction"]
    description := none }

/-- A provider result whose single author name is blank and whose cover URL
happens to be the literal sentinel string. -/
def blankAuthorMeta : BookMetadata :=
  { title := some "Some Title"
    authors := [" "]
    cover_url := some "Unknown title"
    subjects := []
    description := none }

/-- An Open Library record for the queried ISBN key in which every field is
absent. -/
def olEmptyEntry : OLEntry :=
  { title := none
    authors := []
    cover := none
    subjects := []
    description := OLDesc.missing }

/-- A secondary-provider result holding real data. -/
def richSecondaryMeta : BookMetadata :=
  { title := some "Found Elsewhere"
    authors := ["Jane Roe"]
    cover_url := some "http://covers.example/elsewhere.jpg"
    subjects := ["history"]
    description := none }

/-- A sample cached row: empty stored author (takes the sentinel), null cover,
stored genre. -/
def sampleCacheRecord : CacheRecord :=
  { title := some "Cached Book"
    author := some ""
    cover_url := none
    genre := some "History" }

/-! ### Helper lemmas: character case operations -/

theorem isCased_lowerChar (c : Char) : isCasedChar (lowerChar c) = isCasedChar c := by
  unfold lowerChar
  split <;> rfl

theorem isCased_upperChar (c : Char) : isCasedChar (upperChar c) = isCasedChar c := by
  unfold upperChar
  split <;> rfl

theorem isLowerLetter_upperChar (c : Char) : isLowerLetter (upperChar c) = false := by
  unfold upperChar
  split
  all_goals try decide
  unfold isLowerLetter
  split <;> simp_all

theorem isCased_titleChar (b : Bool) (c : Char) :
    isCasedChar (titleChar b c) = isCasedChar c := by
  unfold titleChar
  cases b <;> simp [isCased_lowerChar, isCased_upperChar]

/-! ### Helper lemmas: `pyTitle` -/

theorem length_titleAux (b : Bool) (l : List Char) : (titleAux b l).length = l.length := by
  induction l generalizing b with
  | nil => rfl
  | cons c cs ih => simp [titleAux, ih]

theorem titleChar_space (b : Bool) (c : Char) (h : titleChar b c = ' ') :
    isCasedChar c = false := by
  have : isCasedChar (titleChar b c) = isCasedChar c := isCased_titleChar b c
  rw [h] at this
  simpa using this.symm

/-- In the output of Python `title()`, the character right after a space is
never a lower-case letter. -/
theorem titleAux_space_lower (l : List Char) (b : Bool) (pre suf : List Char) (c : Char)
    (h : titleAux b l = pre ++ ' ' :: c :: suf) : isLowerLetter c = false := by
  induction l generalizing b pre with
  | nil => cases pre <;> simp [titleAux] at h
  | cons x xs ih =>
    cases pre with
    | nil =>
      simp only [titleAux, List.nil_append, List.cons.injEq] at h
      obtain ⟨hx, htail⟩ := h
      have hnc : isCasedChar x = false := titleChar_space b x hx
      rw [hnc] at htail
      cases xs with
      | nil => simp [titleAux] at htail
      | cons y ys =>
        simp only [titleAux, List.cons.injEq] at htail
        have : titleChar false y = c := htail.1
        rw [← this]
        simpa [titleChar] using isLowerLetter_upperChar y
    | cons p ps =>
      simp only [titleAux, List.cons_append, List.cons.injEq] at h
      exact ih (isCasedChar x) ps h.2

theorem pyTitle_ne_sentinel (s : String) :
    pyTitle s ≠ "Unknown title" ∧ pyTitle s ≠ "Unknown author" := by
  constructor
  · intro h
    have hd : titleAux false s.data = "Unknown title".data := congrArg String.data h
    have hdec : "Unknown title".data =
        ['U', 'n', 'k', 'n', 'o', 'w', 'n'] ++ ' ' :: 't' :: ['i', 't', 'l', 'e'] := by decide
    rw [hdec] at hd
    have := titleAux_space_lower s.data false _ _ _ hd
    simp [isLowerLetter] at this
  · intro h
    have hd : titleAux false s.data = "Unknown author".data := congrArg String.data h
    have hdec : "Unknown author".data =
        ['U', 'n', 'k', 'n', 'o', 'w', 'n'] ++ ' ' :: 'a' :: ['u', 't', 'h', 'o', 'r'] := by decide
    rw [hdec] at hd
    have := titleAux_space_lower s.data false _ _ _ hd
    simp [isLowerLetter] at this

/-! ### Helper lemmas: strings and the classifier's range -/

theorem str_eq_empty_iff (s : String) : s = "" ↔ s.data = [] := by
  constructor
  · intro h; rw [h]
  · intro h; cases s with
    | mk data => simp only at h; rw [h]

theorem pyLower_ne_empty (s : String) (h : s ≠ "") : pyLower s ≠ "" := by
  intro hc
  apply h
  rw [str_eq_empty_iff] at hc ⊢
  have : (pyLower s).data = s.data.map lowerChar := rfl
  rw [this] at hc
  exact List.map_eq_nil_iff.mp hc

theorem pyTitle_ne_empty (s : String) (h : s ≠ "") : pyTitle s ≠ "" := by
  intro hc
  apply h
  rw [str_eq_empty_iff] at hc ⊢
  have : (pyTitle s).data = titleAux false s.data := rfl
  rw [this] at hc
  have := length_titleAux false s.data
  rw [hc] at this
  exact List.length_eq_zero.mp this.symm

theorem pyOrStr_ne_empty (o : Option String) (d : String) (h : d ≠ "") :
    pyOrStr o d ≠ "" := by
  cases o with
  | none => simpa [pyOrStr] using h
  | some s => by_cases hs : s = "" <;> simp [pyOrStr, hs, h]

theorem pyJoin_comma_ne_empty (l : List String) (h1 : l ≠ []) (h2 : l ≠ [""]) :
    pyJoin ", " l ≠ "" := by
  match l with
  | [] => exact absurd rfl h1
  | [a] =>
    have : a ≠ "" := by intro h; exact h2 (by rw [h])
    simpa [pyJoin] using this
  | a :: b :: rest =>
    intro hc
    rw [str_eq_empty_iff] at hc
    have hd : (pyJoin ", " (a :: b :: rest)).data
        = a.data ++ (", " : String).data ++ (pyJoin ", " (b :: rest)).data := by
      simp [pyJoin, String.data_append]
    rw [hd] at hc
    simp at hc

theorem firstNonGeneric_cases (l : List String) :
    firstNonGeneric l = none ∨
    ∃ s, s ∈ l ∧ firstNonGeneric l = some (pyTitle s) := by
  induction l with
  | nil => left; rfl
  | cons s rest ih =>
    by_cases hg : s ∈ GENERIC
    · have hr : firstNonGeneric (s :: rest) = firstNonGeneric rest := by
        simp [firstNonGeneric, hg]
      rcases ih with h | ⟨t, ht, h⟩
      · left; rw [hr, h]
      · right; exact ⟨t, List.mem_cons_of_mem s ht, by rw [hr, h]⟩
    · right
      refine ⟨s, List.mem_cons_self s rest, ?_⟩
      simp [firstNonGeneric, hg]

theorem genreRules_mem_or (text : String) (subjects : List String) :
    genreRules text subjects ∈ GENRES.map some ∨
    genreRules text subjects = firstNonGeneric subjects := by
  unfold genreRules
  by_cases h1 : hasAny text ["crime", "detective", "police", "noir", "murder"] = true
  · rw [if_pos h1]; left; decide
  · rw [if_neg h1]
    by_cases h2 : hasAny text ["comedy", "humor", "humour", "comedic", "satire", "parody"] = true
    · rw [if_pos h2]; left; decide
    · rw [if_neg h2]
      by_cases h3 : hasAny text ["thriller", "suspense", "conspiracy"] = true
      · rw [if_pos h3]; left; decide
      · rw [if_neg h3]
        by_cases h4 : hasAny text ["fantasy", "magic", "dragon", "wizard", "mythical"] = true
        · rw [if_pos h4]; left; decide
        · rw [if_neg h4]
          by_cases h5 : hasAny text ["science fiction", "sci-fi", "sci fi", "space", "dystopian", "post-apocalyptic", "cyberpunk"] = true
          · rw [if_pos h5]; left; decide
          · rw [if_neg h5]
            by_cases h6 : hasAny text ["horror", "ghost", "haunted", "supernatural", "vampire"] = true
            · rw [if_pos h6]; left; decide
            · rw [if_neg h6]
              by_cases h7 : hasAny text ["mystery", "whodunit", "detective story"] = true
              · rw [if_pos h7]; left; decide
              · rw [if_neg h7]
                by_cases h8 : hasAny text ["romance", "love story", "romantic"] = true
                · rw [if_pos h8]; left; decide
                · rw [if_neg h8]
                  by_cases h9 : hasAny text ["young adult", "ya", "teen fiction", "adolescent"] = true
                  · rw [if_pos h9]; left; decide
                  · rw [if_neg h9]
                    by_cases h10 : hasAny text ["poetry", "poem", "verse"] = true
                    · rw [if_pos h10]; left; decide
                    · rw [if_neg h10]
                      by_cases h11 : hasAny text ["biography", "memoir", "autobiography"] = true
                      · rw [if_pos h11]; left; decide
                      · rw [if_neg h11]
                        by_cases h12 : hasAny text ["history", "historical"] = true
                        · rw [if_pos h12]; left; decide
                        · rw [if_neg h12]
                          by_cases h13 : hasAny text ["philosophy", "existentialism", "ethics", "metaphysics"] = true
                          · rw [if_pos h13]; left; decide
                          · rw [if_neg h13]
                            by_cases h14 : hasAny text ["self-help", "self help", "personal growth", "motivation"] = true
                            · rw [if_pos h14]; left; decide
                            · rw [if_neg h14]
                              by_cases h15 : hasAny text ["business", "management", "leadership", "entrepreneur", "economics"] = true
                              · rw [if_pos h15]; left; decide
                              · rw [if_neg h15]
                                by_cases h16 : hasAny text ["anthology", "collection", "short stories", "compiled"] = true
                                · rw [if_pos h16]; left; decide
                                · rw [if_neg h16]
                                  by_cases h17 : hasAny text ["fiction"] = true
                                  · rw [if_pos h17]; left; decide
                                  · rw [if_neg h17]
                                    by_cases h18 : hasAny text ["language", "culture", "society", "politics", "essays", "social life", "reportage"] = true
                                    · rw [if_pos h18]; left; decide
                                    · rw [if_neg h18]
                                      right
                                      rfl

theorem genreRules_cases (text : String) (subjects : List String) :
    genreRules text subjects = none ∨
    genreRules text subjects ∈ GENRES.map some ∨
    ∃ s, s ∈ subjects ∧ genreRules text subjects = some (pyTitle s) := by
  rcases genreRules_mem_or text subjects with h | h
  · right; left; exact h
  · rcases firstNonGeneric_cases subjects with hf | ⟨s, hs, hf⟩
    · left; rw [h, hf]
    · right; right; exact ⟨s, hs, by rw [h, hf]⟩

theorem normalize_genre_cases (subjects : List String) (title description : Option String) :
    normalize_genre subjects title description = none ∨
    normalize_genre subjects title description ∈ GENRES.map some ∨
    ∃ s, s ∈ subjects ∧
      normalize_genre subjects title description = some (pyTitle (pyLower s)) := by
  have h := genreRules_cases
    (pyJoin " " (subjects.map pyLower ++ [pyLower (title.getD ""), pyLower (description.getD "")]))
    (subjects.map pyLower)
  rcases h with h | h | ⟨ls, hmem, h⟩
  · left; exact h
  · right; left; exact h
  · right; right
    obtain ⟨s, hs, rfl⟩ := List.mem_map.mp hmem
    exact ⟨s, hs, h⟩

theorem normalize_genre_not_sentinel (subjects : List String) (title description : Option String) :
    normalize_genre subjects title description ≠ some "Unknown title" ∧
    normalize_genre subjects title description ≠ some "Unknown author" := by
  rcases normalize_genre_cases subjects title description with h | h | ⟨s, _, h⟩
  · rw [h]; exact ⟨by simp, by simp⟩
  · constructor <;> intro hEq <;> rw [hEq] at h <;> revert h <;> decide
  · rw [h]
    have hs := pyTitle_ne_sentinel (pyLower s)
    exact ⟨by simpa using hs.1, by simpa using hs.2⟩

/-! ### Helper lemmas: `splitFirstComma` -/

theorem mk_data (s : String) : String.mk s.data = s := rfl

theorem splitFirstComma_eq_none (cs : List Char) (h : ',' ∉ cs) :
    splitFirstComma cs = none := by
  induction cs with
  | nil => rfl
  | cons c t ih =>
    have hc : ¬c = ',' := fun hc => h (hc ▸ List.mem_cons_self c t)
    have ht : ',' ∉ t := fun hm => h (List.mem_cons_of_mem c hm)
    simp [splitFirstComma, hc, ih ht]

theorem splitFirstComma_append (l f : List Char) (h : ',' ∉ l) :
    splitFirstComma (l ++ ',' :: f) = some (l, f) := by
  induction l with
  | nil => simp [splitFirstComma]
  | cons c t ih =>
    have hc : ¬c = ',' := fun hc => h (hc ▸ List.mem_cons_self c t)
    have ht : ',' ∉ t := fun hm => h (List.mem_cons_of_mem c hm)
    simp [splitFirstComma, hc, ih ht]

/-! ### Claim C9: the author normalizer contract -/

/-- C9: `normalize_author_name` is total; empty or null input yields the empty
string; if the trimmed input contains a comma it is split on the first comma
only into (last, first) and, when both parts are non-empty after trimming,
the result is "first last", otherwise the trimmed input is returned
unchanged; in particular "Christie, Agatha" becomes "Agatha Christie",
"Agatha Christie" and "OneName," are unchanged, and "" maps to "". -/
theorem normalize_author_name_contract :
    (normalize_author_name none = "" ∧ normalize_author_name (some "") = "")
    ∧ (∀ s : String, ',' ∉ (pyStrip s).data → normalize_author_name (some s) = pyStrip s)
    ∧ (∀ s l f : String, (pyStrip s).data = l.data ++ ',' :: f.data → ',' ∉ l.data →
        pyStrip l ≠ "" → pyStrip f ≠ "" →
        normalize_author_name (some s) = pyStrip f ++ " " ++ pyStrip l)
    ∧ (∀ s l f : String, (pyStrip s).data = l.data ++ ',' :: f.data → ',' ∉ l.data →
        (pyStrip l = "" ∨ pyStrip f = "") →
        normalize_author_name (some s) = pyStrip s)
    ∧ normalize_author_name (some "Christie, Agatha") = "Agatha Christie"
    ∧ normalize_author_name (some "Agatha Christie") = "Agatha Christie"
    ∧ normalize_author_name (some "OneName,") = "OneName," := by
  refine ⟨⟨by decide, by decide⟩, ?_, ?_, ?_, by decide, by decide, by decide⟩
  · intro s h
    simp only [normalize_author_name, Option.getD_some]
    rw [splitFirstComma_eq_none _ h]
  · intro s l f hdata hnc hl hf
    simp only [normalize_author_name, Option.getD_some]
    rw [hdata, splitFirstComma_append l.data f.data hnc]
    simp only [mk_data]
    rw [if_pos]
    simp [hl, hf]
  · intro s l f hdata hnc hbad
    simp only [normalize_author_name, Option.getD_some]
    rw [hdata, splitFirstComma_append l.data f.data hnc]
    simp only [mk_data]
    rw [if_neg]
    rcases hbad with h | h <;> simp [h]

/-- Witness for C9: the comma-splitting clause applied to the concrete input
" Doe , John " produces "John Doe". -/
theorem normalize_author_name_contract_witness :
    normalize_author_name (some " Doe , John ") = "John Doe" := by
  have h := normalize_author_name_contract.2.2.1 " Doe , John " "Doe " " John"
    (by decide) (by decide) (by decide) (by decide)
  rw [h]
  decide

/-! ### Claim C1: cache hit returns the stored record with no provider call -/

/-- C1: for every cached record and every behavior of the providers,
`fetch_book_info` on a cache hit performs no provider call and returns the
stored record: title/author are replaced by the sentinels exactly when the
stored field is null or the empty string (Python falsiness), and cover_url
and genre pass through exactly as stored, including null. -/
theorem fetch_book_info_cache_hit (rec : CacheRecord) (primary secondary : Option BookMetadata) :
    fetch_book_info (Except.ok (some rec)) primary secondary =
      ((match rec.title with
        | none => "Unknown title"
        | some t => if t = "" then "Unknown title" else t,
        match rec.author with
        | none => "Unknown author"
        | some a => if a = "" then "Unknown author" else a,
        rec.cover_url,
        rec.genre),
       []) := rfl

/-! ### Claim C2: provider chain on a cache miss -/

/-- C2: on a cache miss the primary provider is always called first, the
secondary provider is called exactly when the primary returned absent, and
when both providers return absent the result is the tuple
("Unknown title", "Unknown author", null, null). -/
theorem fetch_book_info_provider_chain (primary secondary : Option BookMetadata) :
    (fetch_book_info (Except.ok none) primary secondary).2.head? = some ProviderCall.primary
    ∧ (ProviderCall.secondary ∈ (fetch_book_info (Except.ok none) primary secondary).2
        ↔ primary = none)
    ∧ (fetch_book_info (Except.ok none) none none).1
        = ("Unknown title", "Unknown author", none, none) := by
  refine ⟨?_, ?_, rfl⟩
  · cases primary <;> cases secondary <;> rfl
  · cases primary with
    | none => cases secondary <;> simp [fetch_book_info, chosenMeta]
    | some m => simp [fetch_book_info, chosenMeta]

/-! ### Claim C6: a failing cache lookup is silently treated as a miss -/

/-- C6 counterexample: when the cache lookup raises, the caller receives
exactly what a cache miss would produce at the same provider outcomes (here a
concrete one), so the failure is not surfaced as a distinct condition. -/
theorem cache_failure_indistinguishable :
    fetch_book_info (Except.error "store unavailable") (some sampleMeta) none
      = fetch_book_info (Except.ok none) (some sampleMeta) none := rfl

/-- C6 (amended): a failing cache lookup is logged and then silently treated
as a cache miss: for every error and every provider behavior the result,
including the provider-call trace, is identical to the cache-miss result. -/
theorem cache_failure_as_miss (e : String) (primary secondary : Option BookMetadata) :
    fetch_book_info (Except.error e) primary secondary
      = fetch_book_info (Except.ok none) primary secondary := rfl

/-! ### Claim C7: an all-absent upstream record is not treated as absent -/

/-- C7 counterexample: when the primary upstream response contains a record
for the ISBN key with none of its fields, `_fetch_from_openlibrary` returns a
non-absent all-empty metadata, so `fetch_book_info` does not call the
secondary provider — even one holding real data — and collapses to the
unknown tuple. -/
theorem allabsent_entry_not_absent :
    fetch_book_info (Except.ok none) (fetch_from_openlibrary (some olEmptyEntry))
        (some richSecondaryMeta)
      = (("Unknown title", "Unknown author", none, none), [ProviderCall.primary])
    ∧ ProviderCall.secondary ∉
        (fetch_book_info (Except.ok none) (fetch_from_openlibrary (some olEmptyEntry))
          (some richSecondaryMeta)).2 := by
  constructor
  · decide
  · decide

/-- C7 (amended): an upstream record with every field absent is returned by
the primary adapter as (non-absent) all-empty metadata; the pipeline therefore
never calls the secondary provider, whatever it would return, and produces the
unknown tuple ("Unknown title", "Unknown author", null, null). -/
theorem allabsent_entry_uses_primary (secondary : Option BookMetadata) :
    fetch_book_info (Except.ok none) (fetch_from_openlibrary (some olEmptyEntry)) secondary
      = (("Unknown title", "Unknown author", none, none), [ProviderCall.primary]) := rfl

/-! ### Claim C4: classifying the lone generic subject "juvenile fiction" -/

/-- C4 counterexample: `_normalize_genre(["juvenile fiction"], None, None)` is
not absent. -/
theorem juvenile_fiction_not_absent :
    normalize_genre ["juvenile fiction"] none none ≠ none := by decide

/-- C4 (amended): `_normalize_genre(["juvenile fiction"], None, None)` returns
"Literary Fiction": the fiction catch-all fires on the substring "fiction" in
the subject before the generic-exclusion fallback is ever reached. -/
theorem juvenile_fiction_literary :
    normalize_genre ["juvenile fiction"] none none = some "Literary Fiction" := by decide

/-! ### Claim C5: classifying the title "a philosophical treatise" -/

/-- C5 counterexample: `_normalize_genre([], "a philosophical treatise", None)`
does not return "Philosophy". -/
theorem philosophical_treatise_not_philosophy :
    normalize_genre [] (some "a philosophical treatise") none ≠ some "Philosophy" := by decide

/-- C5 (amended): `_normalize_genre([], "a philosophical treatise", None)`
returns absent: "philosophy" is not a substring of "philosophical", no other
keyword rule or catch-all matches, and the subject list is empty. -/
theorem philosophical_treatise_absent :
    normalize_genre [] (some "a philosophical treatise") none = none := by decide

/-! ### Claim C8: totality and range of the classifier -/

/-- C8 counterexample: with an empty-string subject the classifier returns the
empty string — the fallback title-cases the (non-generic) empty subject. -/
theorem classify_empty_subject_gives_empty :
    normalize_genre [""] none none = some "" := by decide

/-- C8 (amended): the classifier is a pure total function (hence
deterministic); its result is absent, one of the enumerated taxonomy labels,
or the title-cased form of a (lowered) subject, and — provided no subject is
itself the empty string — it is never the empty string. -/
theorem classify_total_range (subjects : List String) (title description : Option String)
    (h : "" ∉ subjects) :
    (normalize_genre subjects title description = none
      ∨ normalize_genre subjects title description ∈ GENRES.map some
      ∨ ∃ s, s ∈ subjects ∧
          normalize_genre subjects title description = some (pyTitle (pyLower s)))
    ∧ normalize_genre subjects title description ≠ some "" := by
  refine ⟨normalize_genre_cases subjects title description, ?_⟩
  rcases normalize_genre_cases subjects title description with hc | hc | ⟨s, hs, hc⟩
  · rw [hc]; simp
  · intro hEq; rw [hEq] at hc; revert hc; decide
  · rw [hc]
    intro hEq
    have hsne : s ≠ "" := fun he => h (he ▸ hs)
    exact pyTitle_ne_empty (pyLower s) (pyLower_ne_empty s hsne) (Option.some.inj hEq)

/-- Witness for C8: at the concrete input (["horse racing"], None, None) the
hypothesis holds and the classifier lands in the characterized range (here the
title-cased subject "Horse Racing") and is non-empty. -/
theorem classify_total_range_witness :
    ("" ∉ (["horse racing"] : List String))
    ∧ ((normalize_genre ["horse racing"] none none = none
        ∨ normalize_genre ["horse racing"] none none ∈ GENRES.map some
        ∨ ∃ s, s ∈ (["horse racing"] : List String) ∧
            normalize_genre ["horse racing"] none none = some (pyTitle (pyLower s)))
       ∧ normalize_genre ["horse racing"] none none ≠ some "") :=
  ⟨by decide, classify_total_range ["horse racing"] none none (by decide)⟩

/-! ### Claim C10: the classifier is invariant under letter-case changes -/

/-- C10: the classifier lower-cases its inputs before doing anything else, so
any two input triples that agree after lower-casing — in particular an input
and any case-variant of it — classify identically, on every path including
the title-cased-subject fallback. -/
theorem classify_case_insensitive (subs subs' : List String) (t t' d d' : Option String)
    (hs : subs.map pyLower = subs'.map pyLower)
    (ht : pyLower (t.getD "") = pyLower (t'.getD ""))
    (hd : pyLower (d.getD "") = pyLower (d'.getD "")) :
    normalize_genre subs t d = normalize_genre subs' t' d' := by
  unfold normalize_genre
  rw [hs, ht, hd]

/-- Witness for C10: a mixed-case input classifies exactly as its lower-case
variant, on the fallback path that returns a title-cased subject. -/
theorem classify_case_insensitive_witness :
    (["HORSE Racing"].map pyLower = ["horse racing"].map pyLower)
    ∧ normalize_genre ["HORSE Racing"] (some "An ODD Sport") none
        = normalize_genre ["horse racing"] (some "an odd sport") none :=
  ⟨by decide,
   classify_case_insensitive _ _ _ _ _ _ (by decide) (by decide) (by decide)⟩

/-! ### Claim C3: the ResolvedBook data-model invariant -/

theorem composeMeta_invariant (m : BookMetadata)
    (hcov1 : m.cover_url ≠ some "Unknown title") (hcov2 : m.cover_url ≠ some "Unknown author")
    (hauth : m.authors.map (fun a => normalize_author_name (some a)) ≠ [""]) :
    (composeMeta m).1 ≠ "" ∧ (composeMeta m).2.1 ≠ ""
    ∧ (composeMeta m).2.2.1 ≠ some "Unknown title"
    ∧ (composeMeta m).2.2.1 ≠ some "Unknown author"
    ∧ (composeMeta m).2.2.2 ≠ some "Unknown title"
    ∧ (composeMeta m).2.2.2 ≠ some "Unknown author" := by
  refine ⟨pyOrStr_ne_empty _ _ (by decide), ?_, hcov1, hcov2,
    (normalize_genre_not_sentinel m.subjects _ m.description).1,
    (normalize_genre_not_sentinel m.subjects _ m.description).2⟩
  show (if (m.authors.map (fun a => normalize_author_name (some a))).isEmpty = true
        then "Unknown author"
        else pyJoin ", " (m.authors.map (fun a => normalize_author_name (some a)))) ≠ ""
  by_cases he : (m.authors.map (fun a => normalize_author_name (some a))).isEmpty = true
  · rw [if_pos he]; decide
  · rw [if_neg he]
    refine pyJoin_comma_ne_empty _ ?_ hauth
    intro h0
    exact he (by rw [h0]; rfl)

theorem provider_path_invariant (primary secondary : Option BookMetadata)
    (hmeta : ∀ m, chosenMeta primary secondary = some m →
      m.cover_url ≠ some "Unknown title" ∧ m.cover_url ≠ some "Unknown author"
      ∧ m.authors.map (fun a => normalize_author_name (some a)) ≠ [""]) :
    (fetch_book_info (Except.ok none) primary secondary).1.1 ≠ ""
    ∧ (fetch_book_info (Except.ok none) primary secondary).1.2.1 ≠ ""
    ∧ (fetch_book_info (Except.ok none) primary secondary).1.2.2.1 ≠ some "Unknown title"
    ∧ (fetch_book_info (Except.ok none) primary secondary).1.2.2.1 ≠ some "Unknown author"
    ∧ (fetch_book_info (Except.ok none) primary secondary).1.2.2.2 ≠ some "Unknown title"
    ∧ (fetch_book_info (Except.ok none) primary secondary).1.2.2.2 ≠ some "Unknown author" := by
  cases primary with
  | some m =>
    obtain ⟨h1, h2, h3⟩ := hmeta m rfl
    exact composeMeta_invariant m h1 h2 h3
  | none =>
    cases secondary with
    | some m =>
      obtain ⟨h1, h2, h3⟩ := hmeta m rfl
      exact composeMeta_invariant m h1 h2 h3
    | none =>
      exact ⟨by decide, by decide, by decide, by decide, by decide, by decide⟩

/-- C3 counterexample: the invariant fails as universally stated.  For the
cache-miss resolution of a provider record whose single author name is blank
and whose cover URL is the literal string "Unknown title", the returned
author is the empty string and the returned cover_url is the sentinel
string. -/
theorem resolved_book_invariant_cex :
    (fetch_book_info (Except.ok none) (some blankAuthorMeta) none).1.2.1 = ""
    ∧ (fetch_book_info (Except.ok none) (some blankAuthorMeta) none).1.2.2.1
        = some "Unknown title" := by
  exact ⟨by decide, by decide⟩

/-- C3 (amended): the returned title is never empty; provided the stored
record's cover/genre and the chosen provider record's cover are not literal
sentinel strings and the provider's author list does not normalize to a lone
empty name, the returned author is non-empty and the returned cover_url and
genre are never the sentinel strings (the classifier-produced genre is
sentinel-free unconditionally). -/
theorem resolved_book_invariant (cacheRes : Except String (Option CacheRecord))
    (primary secondary : Option BookMetadata)
    (hcache : ∀ rec, cacheRes = Except.ok (some rec) →
      rec.cover_url ≠ some "Unknown title" ∧ rec.cover_url ≠ some "Unknown author"
      ∧ rec.genre ≠ some "Unknown title" ∧ rec.genre ≠ some "Unknown author")
    (hmeta : ∀ m, chosenMeta primary secondary = some m →
      m.cover_url ≠ some "Unknown title" ∧ m.cover_url ≠ some "Unknown author"
      ∧ m.authors.map (fun a => normalize_author_name (some a)) ≠ [""]) :
    (fetch_book_info cacheRes primary secondary).1.1 ≠ ""
    ∧ (fetch_book_info cacheRes primary secondary).1.2.1 ≠ ""
    ∧ (fetch_book_info cacheRes primary secondary).1.2.2.1 ≠ some "Unknown title"
    ∧ (fetch_book_info cacheRes primary secondary).1.2.2.1 ≠ some "Unknown author"
    ∧ (fetch_book_info cacheRes primary secondary).1.2.2.2 ≠ some "Unknown title"
    ∧ (fetch_book_info cacheRes primary secondary).1.2.2.2 ≠ some "Unknown author" := by
  cases cacheRes with
  | error e => exact provider_path_invariant primary secondary hmeta
  | ok o =>
    cases o with
    | none => exact provider_path_invariant primary secondary hmeta
    | some rec =>
      obtain ⟨h1, h2, h3, h4⟩ := hcache rec rfl
      exact ⟨pyOrStr_ne_empty _ _ (by decide), pyOrStr_ne_empty _ _ (by decide), h1, h2, h3, h4⟩

/-- Witness for C3: the amended invariant holds at a concrete cache miss with
a well-behaved primary provider record. -/
theorem resolved_book_invariant_witness :
    (fetch_book_info (Except.ok none) (some niceMeta) none).1.1 ≠ ""
    ∧ (fetch_book_info (Except.ok none) (some niceMeta) none).1.2.1 ≠ ""
    ∧ (fetch_book_info (Except.ok none) (some niceMeta) none).1.2.2.1 ≠ some "Unknown title"
    ∧ (fetch_book_info (Except.ok none) (some niceMeta) none).1.2.2.1 ≠ some "Unknown author"
    ∧ (fetch_book_info (Except.ok none) (some niceMeta) none).1.2.2.2 ≠ some "Unknown title"
    ∧ (fetch_book_info (Except.ok none) (some niceMeta) none).1.2.2.2 ≠ some "Unknown author" :=
  resolved_book_invariant (Except.ok none) (some niceMeta) none
    (fun rec h => Option.noConfusion (Except.ok.inj h))
    (fun m h => by
      have h2 : niceMeta = m := Option.some.inj h
      rw [← h2]
      exact ⟨by decide, by decide, by decide⟩)

/-! ### Witnesses for the hypothesis-free orchestrator claims -/

/-- Witness for C1 at a concrete cached row: the empty stored author takes the
sentinel, the stored title, null cover and stored genre pass through, and no
provider is called. -/
theorem fetch_book_info_cache_hit_witness :
    fetch_book_info (Except.ok (some sampleCacheRecord)) (some sampleMeta) none
      = (("Cached Book", "Unknown author", none, some "History"), []) :=
  (fetch_book_info_cache_hit sampleCacheRecord (some sampleMeta) none).trans (by decide)

/-- Witness for C2 at a concrete cache miss where only the secondary provider
finds the book. -/
theorem fetch_book_info_provider_chain_witness :
    (fetch_book_info (Except.ok none) none (some sampleMeta)).2.head?
        = some ProviderCall.primary
    ∧ (ProviderCall.secondary ∈ (fetch_book_info (Except.ok none) none (some sampleMeta)).2
        ↔ (none : Option BookMetadata) = none)
    ∧ (fetch_book_info (Except.ok none) none none).1
        = ("Unknown title", "Unknown author", none, none) :=
  fetch_book_info_provider_chain none (some sampleMeta)

/-- Witness for C6 at a concrete error and provider outcome. -/
theorem cache_failure_as_miss_witness :
    fetch_book_info (Except.error "connection refused") none (some sampleMeta)
      = fetch_book_info (Except.ok none) none (some sampleMeta) :=
  cache_failure_as_miss "connection refused" none (some sampleMeta)

/-- Witness for C7 with an absent secondary provider. -/
theorem allabsent_entry_uses_primary_witness :
    fetch_book_info (Except.ok none) (fetch_from_openlibrary (some olEmptyEntry)) none
      = (("Unknown title", "Unknown author", none, none), [ProviderCall.primary]) :=
  allabsent_entry_uses_primary none
